import Mathlib

/-!
Shallow embedding of `src/workspace/python_client/vscode_bridge.py`.

The module implements a synchronous WebSocket RPC client (`VSCodeBridge`)
with a process-wide singleton constructor, lazy `connect`, a raw
send/receive primitive, JSON request/reply handling, and four public
façade operations.  We model Python values produced by `json.loads` as
`PyValue`, Python exceptions relevant to the module as `PyExc`, the
mutable instance state as `Bridge`, and network side effects as an
explicit trace of `NetEvent`s.  Outcomes of the environment (the host,
the socket library) are passed in as explicit parameters.
-/

/-- A Python value as produced by `json.loads` (and as passed to
`json.dumps`): `None`, booleans, numbers (modelled as integers),
strings, lists and dicts (association lists with unique keys). -/
inductive PyValue where
  | null
  | bool (b : Bool)
  | num (n : Int)
  | str (s : String)
  | arr (elems : List PyValue)
  | obj (fields : List (String × PyValue))

mutual

/-- Structural equality of Python JSON values. -/
def PyValue.beq : PyValue → PyValue → Bool
  | .null, .null => true
  | .bool a, .bool b => a == b
  | .num a, .num b => a == b
  | .str a, .str b => a == b
  | .arr a, .arr b => PyValue.beqList a b
  | .obj a, .obj b => PyValue.beqFields a b
  | _, _ => false

/-- Elementwise equality of JSON arrays. -/
def PyValue.beqList : List PyValue → List PyValue → Bool
  | [], [] => true
  | x :: xs, y :: ys => PyValue.beq x y && PyValue.beqList xs ys
  | _, _ => false

/-- Memberwise equality of JSON objects. -/
def PyValue.beqFields : List (String × PyValue) → List (String × PyValue) → Bool
  | [], [] => true
  | (k, v) :: xs, (l, w) :: ys => k == l && PyValue.beq v w && PyValue.beqFields xs ys
  | _, _ => false

end

instance : BEq PyValue := ⟨PyValue.beq⟩

/-- The Python exceptions that the module can raise or let escape.
`VSCodeBridgeError(message, code)` is the single exception class the
module defines (`vscode_bridge.py` lines 22-27); its `message` and
`code` are arbitrary Python values (the code passes through whatever
`error_info.get(...)` returned).  `typeError` models the `TypeError`
raised by `'error' in x` on a non-container, `attributeError` the
`AttributeError` raised by `.get` on an object without that method,
and `keyError` a dict lookup miss. -/
inductive PyExc where
  | vscodeBridgeError (message : PyValue) (code : PyValue)
  | typeError
  | attributeError
  | keyError

/-- Python membership test `key in v` for a string `key`:
dict → key lookup, list → element membership, string → substring test,
anything else → `TypeError`. -/
def pyContains (v : PyValue) (key : String) : Except PyExc Bool :=
  match v with
  | .obj fields => .ok (fields.lookup key).isSome
  | .arr elems => .ok (elems.contains (.str key))
  | .str s => .ok ((s.splitOn key).length != 1)
  | _ => .error .typeError

/-- Python subscript `v[key]` for a string `key`: dict lookup
(`KeyError` on a miss), anything else → `TypeError` (string and list
subscripts require integers). -/
def pySubscript (v : PyValue) (key : String) : Except PyExc PyValue :=
  match v with
  | .obj fields =>
      match fields.lookup key with
      | some x => .ok x
      | none => .error .keyError
  | _ => .error .typeError

/-- Python `v.get(key, default)`: only dicts have a `get` method;
on any other value the attribute access raises `AttributeError`. -/
def pyGetMethod (v : PyValue) (key : String) (default : PyValue) : Except PyExc PyValue :=
  match v with
  | .obj fields => .ok ((fields.lookup key).getD default)
  | _ => .error .attributeError

/-- Hexadecimal digit character (lower case), for `\uXXXX` escapes. -/
def hexDigit (n : Nat) : Char :=
  (("0123456789abcdef".data).getD n '0')

/-- Four-digit hexadecimal rendering of a code unit. -/
def hex4 (n : Nat) : String :=
  String.mk [hexDigit (n / 4096 % 16), hexDigit (n / 256 % 16),
             hexDigit (n / 16 % 16), hexDigit (n % 16)]

/-- JSON escaping of one character, following `json.dumps` defaults
(`ensure_ascii=True`): the two-character escapes for quote, backslash
and common controls, `\uXXXX` for the other controls and all
non-ASCII characters, surrogate pairs above U+FFFF. -/
def escChar (c : Char) : String :=
  let n := c.toNat
  if c = '"' then "\\\""
  else if c = '\\' then "\\\\"
  else if c = '\n' then "\\n"
  else if c = '\r' then "\\r"
  else if c = '\t' then "\\t"
  else if n = 8 then "\\b"
  else if n = 12 then "\\f"
  else if n < 32 || n > 126 then
    if n ≥ 65536 then
      let m := n - 65536
      "\\u" ++ hex4 (55296 + m / 1024) ++ "\\u" ++ hex4 (56320 + m % 1024)
    else "\\u" ++ hex4 n
  else String.singleton c

/-- JSON string literal for `s`, as `json.dumps` renders it. -/
def dumpStr (s : String) : String :=
  "\"" ++ String.join (s.data.map escChar) ++ "\""

mutual

/-- Model of `json.dumps(v)` with the default separators `", "` and `": "`. -/
def dumps : PyValue → String
  | .null => "null"
  | .bool true => "true"
  | .bool false => "false"
  | .num n => toString n
  | .str s => dumpStr s
  | .arr elems => "[" ++ dumpsList elems ++ "]"
  | .obj fields => "\x7b" ++ dumpsFields fields ++ "\x7d"

/-- Comma-separated rendering of a JSON array's elements. -/
def dumpsList : List PyValue → String
  | [] => ""
  | [x] => dumps x
  | x :: rest => dumps x ++ ", " ++ dumpsList rest

/-- Comma-separated rendering of a JSON object's members. -/
def dumpsFields : List (String × PyValue) → String
  | [] => ""
  | [(k, v)] => dumpStr k ++ ": " ++ dumps v
  | (k, v) :: rest => dumpStr k ++ ": " ++ dumps v ++ ", " ++ dumpsFields rest

end

/-- Whether a byte is a UTF-8 continuation byte (`10xxxxxx`). -/
def isContByte (b : Nat) : Bool :=
  128 ≤ b && b < 192

/-- Strict UTF-8 decoding of a byte list, as `bytes.decode('utf-8')`:
rejects stray continuation bytes, overlong encodings, surrogate code
points and code points above U+10FFFF.  Returns `none` where Python
raises `UnicodeDecodeError`. -/
def decodeUtf8Aux : List Nat → List Char → Option (List Char)
  | [], acc => some acc.reverse
  | b :: rest, acc =>
    if b < 128 then decodeUtf8Aux rest (Char.ofNat b :: acc)
    else if b < 194 then none
    else if b < 224 then
      match rest with
      | b1 :: rest' =>
        if isContByte b1 then
          decodeUtf8Aux rest' (Char.ofNat ((b - 192) * 64 + (b1 - 128)) :: acc)
        else none
      | _ => none
    else if b < 240 then
      match rest with
      | b1 :: b2 :: rest' =>
        if isContByte b1 && isContByte b2 then
          let cp := (b - 224) * 4096 + (b1 - 128) * 64 + (b2 - 128)
          if cp < 2048 then none
          else if 55296 ≤ cp && cp < 57344 then none
          else decodeUtf8Aux rest' (Char.ofNat cp :: acc)
        else none
      | _ => none
    else if b < 245 then
      match rest with
      | b1 :: b2 :: b3 :: rest' =>
        if isContByte b1 && isContByte b2 && isContByte b3 then
          let cp := (b - 240) * 262144 + (b1 - 128) * 4096 + (b2 - 128) * 64 + (b3 - 128)
          if cp < 65536 || 1114112 ≤ cp then none
          else decodeUtf8Aux rest' (Char.ofNat cp :: acc)
        else none
      | _ => none
    else none

/-- Model of `bytes.decode('utf-8')` on a byte list: `some` of the decoded
string, or `none` where CPython raises `UnicodeDecodeError`. -/
def decodeUtf8 (bs : List Nat) : Option String :=
  (decodeUtf8Aux bs []).map String.mk

/-- The mutable attribute state of a `VSCodeBridge` instance.
`ws` is the socket handle (`None` or a handle identity), `connected`
the flag, `initialized` models the presence of the `_initialized`
attribute set by `__init__`.  Fields of a not-yet-initialized object
hold placeholder values (Python would raise `AttributeError` on
reading them; the code never does before `__init__`). -/
structure Bridge where
  port : Nat
  url : String
  ws : Option Nat
  connected : Bool
  initialized : Bool
deriving Repr, DecidableEq

/-- The endpoint URL `__init__` computes: `f"ws://localhost:{port}"`. -/
def wsUrl (port : Nat) : String :=
  "ws://localhost:" ++ toString port

/-- Model of `VSCodeBridge.__new__`: if the class attribute `_instance` is
`None`, allocate a fresh uninitialized object and store it there;
either way return `_instance`.  (The double-checked lock only guards
the allocation; with the single thread of control modelled here it
collapses to this.)  Returns the object and the updated `_instance`. -/
def pyNew (inst : Option Bridge) : Bridge × Option Bridge :=
  match inst with
  | some b => (b, some b)
  | none =>
      let fresh : Bridge := ⟨0, "", none, false, false⟩
      (fresh, some fresh)

/-- Model of `VSCodeBridge.__init__(port)`: a no-op when `_initialized` is
already set; otherwise sets `_initialized`, `port`,
`url = f"ws://localhost:{port}"`, `ws = None`, `connected = False`
(and registers `cleanup` with `atexit`, not modelled as state). -/
def pyInit (b : Bridge) (port : Nat) : Bridge :=
  if b.initialized then b
  else { port := port, url := wsUrl port, ws := none, connected := false,
         initialized := true }

/-- Model of the constructor call `VSCodeBridge(port)`: Python runs `__new__` then `__init__` on the
returned object.  Since `_instance` aliases the returned object, the
mutations `__init__` performs are visible through `_instance` as well.
Returns the constructed instance and the updated `_instance` slot. -/
def construct (inst : Option Bridge) (port : Nat) : Bridge × Option Bridge :=
  let b := (pyNew inst).1
  let b' := pyInit b port
  (b', some b')

/-- A network-level side effect performed by the bridge, in order. -/
inductive NetEvent where
  | createConnection (url : String)
  | recvWelcome (sock : Nat)
  | send (sock : Nat) (message : String)
  | recv (sock : Nat)
  | close (sock : Nat)
deriving Repr, DecidableEq

/-- Outcome the environment gives to
`websocket.create_connection(self.url, timeout=10)` when it is
attempted: a fresh socket handle (with the welcome `recv` succeeding
or not — the code ignores which), or an exception with text `errText`. -/
inductive ConnectOutcome where
  | success (sock : Nat) (welcomeOk : Bool)
  | failure (errText : String)
deriving Repr, DecidableEq

/-- The value `ws.recv()` hands back to `send_raw_message`: the
`websocket-client` library may return `str`, `bytes`, or another
object (coerced by the code via `str(...)`, whose rendering we take
as given). -/
inductive WireReply where
  | str (s : String)
  | bytes (bs : List Nat)
  | other (reprText : String)
deriving Repr, DecidableEq

/-- Outcome the environment gives to the `ws.send` / `ws.recv` pair
inside `send_raw_message`: the send raises, the receive raises, or a
reply value arrives. -/
inductive RawOutcome where
  | sendFail (errText : String)
  | recvFail (errText : String)
  | reply (r : WireReply)
deriving Repr, DecidableEq

/-- Result of one method call: the returned value or escaped
exception, the instance state after the call, and the trace of
network effects performed, in order. -/
structure PyResult (α : Type) where
  val : Except PyExc α
  state : Bridge
  trace : List NetEvent

/-- Model of `VSCodeBridge.connect` (lines 58-79): a no-op when
`self.connected and self.ws` holds; otherwise attempts
`create_connection`.  On success sets `ws` and `connected` and makes a
best-effort read of the welcome message (its failure is swallowed).
On failure resets `connected`/`ws` and raises
`VSCodeBridgeError(f"Connection failed: {e}")`. -/
def connect (b : Bridge) (env : ConnectOutcome) : PyResult Unit :=
  if b.connected && b.ws.isSome then ⟨.ok (), b, []⟩
  else
    match env with
    | .success sock _ =>
        ⟨.ok (), { b with ws := some sock, connected := true },
         [.createConnection b.url, .recvWelcome sock]⟩
    | .failure e =>
        ⟨.error (.vscodeBridgeError (.str ("Connection failed: " ++ e)) .null),
         { b with connected := false, ws := none },
         [.createConnection b.url]⟩

/-- The string `send_raw_message` returns from a received reply value
(lines 96-101): `str` unchanged, `bytes` decoded as UTF-8 (raising
`UnicodeDecodeError`, carried as `Except.error` with the exception
text, when the bytes are not valid UTF-8), anything else via
`str(...)`. -/
def wireToStr (r : WireReply) : Except String String :=
  match r with
  | .str s => .ok s
  | .bytes bs =>
      match decodeUtf8 bs with
      | some s => .ok s
      | none => .error "UnicodeDecodeError"
  | .other t => .ok t

/-- Model of `VSCodeBridge.send_raw_message` (lines 81-107): lazily connects,
raises when still not connected, then sends the message and blocks for
one reply, normalizing it to `str`.  Any exception from the
send/receive/decode block marks the connection closed (`connected =
False`, `ws = None`) and raises
`VSCodeBridgeError(f"Message send failed: {e}")`. -/
def send_raw_message (b : Bridge) (cenv : ConnectOutcome) (renv : RawOutcome)
    (message : String) : PyResult String :=
  let step1 : PyResult Unit :=
    if !b.connected then connect b cenv else ⟨.ok (), b, []⟩
  match step1 with
  | ⟨.error e, b1, tr⟩ => ⟨.error e, b1, tr⟩
  | ⟨.ok (), b1, tr⟩ =>
    match b1.connected, b1.ws with
    | true, some sock =>
        (match renv with
         | .sendFail e =>
             ⟨.error (.vscodeBridgeError (.str ("Message send failed: " ++ e)) .null),
              { b1 with connected := false, ws := none },
              tr ++ [.send sock message]⟩
         | .recvFail e =>
             ⟨.error (.vscodeBridgeError (.str ("Message send failed: " ++ e)) .null),
              { b1 with connected := false, ws := none },
              tr ++ [.send sock message, .recv sock]⟩
         | .reply r =>
             match wireToStr r with
             | .ok s => ⟨.ok s, b1, tr ++ [.send sock message, .recv sock]⟩
             | .error e =>
                 ⟨.error (.vscodeBridgeError (.str ("Message send failed: " ++ e)) .null),
                  { b1 with connected := false, ws := none },
                  tr ++ [.send sock message, .recv sock]⟩)
    | _, _ =>
        ⟨.error (.vscodeBridgeError (.str "Not connected to WebSocket server") .null),
         b1, tr⟩

/-- The error-check step of `send_json_message` (lines 120-126): if
`'error' in response`, raise `VSCodeBridgeError` with the
host-supplied message (default `'Unknown error'`) and code; otherwise
return the response.  The membership test, subscript and `.get` calls
follow Python semantics, so a non-container response raises
`TypeError` and a non-dict `error` value raises `AttributeError`;
neither is caught by the `except json.JSONDecodeError` handler. -/
def checkError (response : PyValue) : Except PyExc PyValue :=
  match pyContains response "error" with
  | .error e => .error e
  | .ok true =>
      match pySubscript response "error" with
      | .error e => .error e
      | .ok errorInfo =>
          match pyGetMethod errorInfo "message" (.str "Unknown error") with
          | .error e => .error e
          | .ok msg =>
              match pyGetMethod errorInfo "code" .null with
              | .error e => .error e
              | .ok code => .error (.vscodeBridgeError msg code)
  | .ok false => .ok response

/-- Model of `VSCodeBridge.send_json_message` (lines 109-130): lazily connects,
serializes the message with `json.dumps`, exchanges it via
`send_raw_message`, parses the reply with `json.loads` (`loads` is the
parser; `.error e` models `json.JSONDecodeError` with text `e`, turned
into `VSCodeBridgeError(f"Invalid JSON response: {e}")`), and applies
the error check. -/
def send_json_message (loads : String → Except String PyValue) (b : Bridge)
    (cenv : ConnectOutcome) (renv : RawOutcome) (message : PyValue) :
    PyResult PyValue :=
  let step1 : PyResult Unit :=
    if !b.connected then connect b cenv else ⟨.ok (), b, []⟩
  match step1 with
  | ⟨.error e, b1, tr⟩ => ⟨.error e, b1, tr⟩
  | ⟨.ok (), b1, tr⟩ =>
    let jsonStr := dumps message
    match send_raw_message b1 cenv renv jsonStr with
    | ⟨.error e, b2, tr2⟩ => ⟨.error e, b2, tr ++ tr2⟩
    | ⟨.ok responseStr, b2, tr2⟩ =>
        match loads responseStr with
        | .error e =>
            ⟨.error (.vscodeBridgeError (.str ("Invalid JSON response: " ++ e)) .null),
             b2, tr ++ tr2⟩
        | .ok response =>
            match checkError response with
            | .error e => ⟨.error e, b2, tr ++ tr2⟩
            | .ok r => ⟨.ok r, b2, tr ++ tr2⟩

/-- Whether the environment lets `ws.close()` succeed; `cleanup`
swallows the failure either way. -/
inductive CloseOutcome where
  | ok
  | fail
deriving Repr, DecidableEq

/-- Model of `VSCodeBridge.cleanup` (lines 132-140): best-effort close of the
socket when present (errors swallowed), then `ws = None`,
`connected = False`.  Never raises. -/
def cleanup (b : Bridge) (_env : CloseOutcome) : PyResult Unit :=
  match b.ws with
  | some sock => ⟨.ok (), { b with ws := none, connected := false }, [.close sock]⟩
  | none => ⟨.ok (), { b with connected := false }, []⟩

/-- The command object `notify` builds (lines 146-151). -/
def notifyCommand (message : String) : PyValue :=
  .obj [("command", .str "notify"),
        ("params", .obj [("message", .str message)])]

/-- The command object `get_editor_titles` builds (lines 156-159). -/
def getEditorTitlesCommand : PyValue :=
  .obj [("command", .str "get_titles_of_active_editors"),
        ("params", .obj [])]

/-- The command object `get_text_from_editor` builds (lines 166-171). -/
def getTextFromEditorCommand (filename : String) : PyValue :=
  .obj [("command", .str "get_text_from_named_editor"),
        ("params", .obj [("filename", .str filename)])]

/-- The command object `set_active_editor_text` builds (lines 178-183). -/
def setActiveEditorTextCommand (text : String) : PyValue :=
  .obj [("command", .str "set_text_of_active_editor"),
        ("params", .obj [("text", .str text)])]

/-- Model of `VSCodeBridge.notify` (lines 144-152): sends the notify command
and discards the reply value, returning `None`. -/
def notify (loads : String → Except String PyValue) (b : Bridge)
    (cenv : ConnectOutcome) (renv : RawOutcome) (message : String) :
    PyResult Unit :=
  match send_json_message loads b cenv renv (notifyCommand message) with
  | ⟨.error e, b', tr⟩ => ⟨.error e, b', tr⟩
  | ⟨.ok _, b', tr⟩ => ⟨.ok (), b', tr⟩

/-- Model of `VSCodeBridge.get_editor_titles` (lines 154-162): sends the
titles command and returns `response.get('result', [])`. -/
def get_editor_titles (loads : String → Except String PyValue) (b : Bridge)
    (cenv : ConnectOutcome) (renv : RawOutcome) : PyResult PyValue :=
  match send_json_message loads b cenv renv getEditorTitlesCommand with
  | ⟨.error e, b', tr⟩ => ⟨.error e, b', tr⟩
  | ⟨.ok response, b', tr⟩ =>
      match pyGetMethod response "result" (.arr []) with
      | .error e => ⟨.error e, b', tr⟩
      | .ok r => ⟨.ok r, b', tr⟩

/-- Model of `VSCodeBridge.get_text_from_editor` (lines 164-174): sends the
text command for `filename` and returns `response.get('result', '')`. -/
def get_text_from_editor (loads : String → Except String PyValue) (b : Bridge)
    (cenv : ConnectOutcome) (renv : RawOutcome) (filename : String) :
    PyResult PyValue :=
  match send_json_message loads b cenv renv (getTextFromEditorCommand filename) with
  | ⟨.error e, b', tr⟩ => ⟨.error e, b', tr⟩
  | ⟨.ok response, b', tr⟩ =>
      match pyGetMethod response "result" (.str "") with
      | .error e => ⟨.error e, b', tr⟩
      | .ok r => ⟨.ok r, b', tr⟩

/-- Model of `VSCodeBridge.set_active_editor_text` (lines 176-185): sends the
set-text command and discards the reply value, returning `None`. -/
def set_active_editor_text (loads : String → Except String PyValue) (b : Bridge)
    (cenv : ConnectOutcome) (renv : RawOutcome) (text : String) :
    PyResult Unit :=
  match send_json_message loads b cenv renv (setActiveEditorTextCommand text) with
  | ⟨.error e, b', tr⟩ => ⟨.error e, b', tr⟩
  | ⟨.ok _, b', tr⟩ => ⟨.ok (), b', tr⟩

/-! ## Shared concrete instances for witnesses -/

/-- A connected instance state: default port, socket handle 7. -/
def connectedBridge : Bridge :=
  ⟨60123, wsUrl 60123, some 7, true, true⟩

/-- A disconnected instance state on the default port. -/
def freshBridge : Bridge :=
  ⟨60123, wsUrl 60123, none, false, true⟩

/-! ## Claims -/

/-- C1: the claim says constructing `VSCodeBridge` with a port yields
the shared instance configured for that port, and constructing with a
different port does not return an instance configured for some other
port.  The code violates this (contradicting its own comment
"ensure only one instance per port"): `_instance` is a single
class-wide slot and `__init__` returns early once `_initialized` is
set, so after `VSCodeBridge(60123)`, the construction
`VSCodeBridge(9999)` returns the same instance still configured with
`port == 60123` and `url == "ws://localhost:60123"`. -/
theorem construct_second_port_ignored :
    (construct (construct none 60123).2 9999).1.port = 60123 ∧
    (construct (construct none 60123).2 9999).1.url = "ws://localhost:60123" ∧
    (construct (construct none 60123).2 9999).1 = (construct none 60123).1 ∧
    (construct (construct none 60123).2 9999).1.port ≠ 9999 := by
  refine ⟨rfl, rfl, rfl, ?_⟩
  decide

/-- C7: `connect()` is idempotent: whenever the connected flag is set
and the socket handle is present, `connect` returns normally, performs
no network I/O (empty trace), and leaves the instance state unchanged,
whatever the environment would have answered. -/
theorem connect_idempotent (b : Bridge) (sock : Nat) (env : ConnectOutcome)
    (hConn : b.connected = true) (hWs : b.ws = some sock) :
    connect b env = ⟨.ok (), b, []⟩ := by
  simp [connect, hConn, hWs]

/-- Witness for C7 at a concrete connected instance and an environment
that would refuse the connection if it were consulted. -/
theorem connect_idempotent_witness :
    connect connectedBridge (.failure "refused") = ⟨.ok (), connectedBridge, []⟩ :=
  connect_idempotent connectedBridge 7 (.failure "refused") rfl rfl

/-- C8: for every failure while establishing the connection, `connect`
surfaces the connection error (`VSCodeBridgeError` with message
`"Connection failed: " ++ cause`, carrying the underlying cause) and
leaves the instance disconnected: connected flag false, socket handle
cleared.  The hypothesis restricts to states in which `connect`
actually attempts the connection (not already connected). -/
theorem connect_failure_leaves_disconnected (b : Bridge) (e : String)
    (hNot : b.connected = false ∨ b.ws = none) :
    connect b (.failure e) =
      ⟨.error (.vscodeBridgeError (.str ("Connection failed: " ++ e)) .null),
       { b with connected := false, ws := none },
       [.createConnection b.url]⟩ := by
  rcases hNot with h | h <;> simp [connect, h]

/-- Witness for C8 at a concrete disconnected instance with a refused
connection. -/
theorem connect_failure_leaves_disconnected_witness :
    connect freshBridge (.failure "refused") =
      ⟨.error (.vscodeBridgeError (.str "Connection failed: refused") .null),
       freshBridge, [.createConnection (wsUrl 60123)]⟩ :=
  connect_failure_leaves_disconnected freshBridge "refused" (Or.inl rfl)

/-- C9: `cleanup()` never raises: for every instance state and even
when the underlying close operation fails, it returns normally and
leaves the instance disconnected (socket handle cleared, connected
flag false); a second call is equally safe and is a pure no-op on the
network. -/
theorem cleanup_never_raises (b : Bridge) (env env' : CloseOutcome) :
    (cleanup b env).val = .ok () ∧
    (cleanup b env).state.ws = none ∧
    (cleanup b env).state.connected = false ∧
    cleanup (cleanup b env).state env' = ⟨.ok (), (cleanup b env).state, []⟩ := by
  cases h : b.ws <;> simp [cleanup, h]

/-- C2: for every reply object carrying an `error` member (an object,
per the reply schema `{"error": {"message", "code"?}}` in spec §6),
the decoding in `send_json_message` raises a `VSCodeBridgeError`
carrying the host-supplied message (defaulting to "Unknown error") and
optional code (defaulting to `None`), whatever other members —
including `result` — the reply object also has: the error takes
precedence. -/
theorem error_reply_raises_bridge_error (loads : String → Except String PyValue)
    (b : Bridge) (sock : Nat) (cenv : ConnectOutcome) (msg : PyValue)
    (respStr : String) (fields efields : List (String × PyValue))
    (hConn : b.connected = true) (hWs : b.ws = some sock)
    (hLoads : loads respStr = .ok (.obj fields))
    (hErr : fields.lookup "error" = some (.obj efields)) :
    (send_json_message loads b cenv (.reply (.str respStr)) msg).val =
      .error (.vscodeBridgeError
        ((efields.lookup "message").getD (.str "Unknown error"))
        ((efields.lookup "code").getD .null)) := by
  simp [send_json_message, send_raw_message, connect, hConn, hWs, wireToStr,
        hLoads, checkError, pyContains, pySubscript, pyGetMethod, hErr]

/-- Witness for C2: the reply
`{"error": {"message": "X", "code": 42}, "result": "r"}` makes the
call raise with message "X" and code 42, despite the `result` member. -/
theorem error_reply_raises_bridge_error_witness :
    (send_json_message
        (fun _ => .ok (.obj [("error", .obj [("message", .str "X"), ("code", .num 42)]),
                            ("result", .str "r")]))
        connectedBridge (.failure "c") (.reply (.str "resp"))
        (notifyCommand "hi")).val =
      .error (.vscodeBridgeError (.str "X") (.num 42)) :=
  error_reply_raises_bridge_error _ connectedBridge 7 (.failure "c")
    (notifyCommand "hi") "resp"
    [("error", .obj [("message", .str "X"), ("code", .num 42)]), ("result", .str "r")]
    [("message", .str "X"), ("code", .num 42)] rfl rfl rfl rfl

/-- C5: for every reply that is a JSON object containing neither
`result` nor `error`, the façade treats it as success with an
empty/absent result: `notify` returns normally, `get_editor_titles`
returns the empty list, `get_text_from_editor` returns the empty
string. -/
theorem missing_result_and_error_is_success (loads : String → Except String PyValue)
    (b : Bridge) (sock : Nat) (cenv : ConnectOutcome)
    (respStr m fn : String) (fields : List (String × PyValue))
    (hConn : b.connected = true) (hWs : b.ws = some sock)
    (hLoads : loads respStr = .ok (.obj fields))
    (hNoErr : fields.lookup "error" = none)
    (hNoRes : fields.lookup "result" = none) :
    (notify loads b cenv (.reply (.str respStr)) m).val = .ok () ∧
    (get_editor_titles loads b cenv (.reply (.str respStr))).val = .ok (.arr []) ∧
    (get_text_from_editor loads b cenv (.reply (.str respStr)) fn).val = .ok (.str "") := by
  refine ⟨?_, ?_, ?_⟩ <;>
  simp [notify, get_editor_titles, get_text_from_editor, send_json_message,
        send_raw_message, connect, hConn, hWs, wireToStr, hLoads, checkError,
        pyContains, pySubscript, pyGetMethod, hNoErr, hNoRes]

/-- Witness for C5 at the reply `\x7b\x7d` (the empty JSON object). -/
theorem missing_result_and_error_is_success_witness :
    (notify (fun _ => .ok (.obj [])) connectedBridge (.failure "c")
        (.reply (.str "\x7b\x7d")) "hi").val = .ok () ∧
    (get_editor_titles (fun _ => .ok (.obj [])) connectedBridge (.failure "c")
        (.reply (.str "\x7b\x7d"))).val = .ok (.arr []) ∧
    (get_text_from_editor (fun _ => .ok (.obj [])) connectedBridge (.failure "c")
        (.reply (.str "\x7b\x7d")) "a.txt").val = .ok (.str "") :=
  missing_result_and_error_is_success _ connectedBridge 7 (.failure "c")
    "\x7b\x7d" "hi" "a.txt" [] rfl rfl rfl rfl rfl

/-- Helper: when the instance is connected, the first network event of
a `send_json_message` round trip is sending `json.dumps` of the
command object on the existing socket. -/
theorem send_json_connected_trace_head (loads : String → Except String PyValue)
    (b : Bridge) (sock : Nat) (cenv : ConnectOutcome) (renv : RawOutcome)
    (msg : PyValue)
    (hConn : b.connected = true) (hWs : b.ws = some sock) :
    (send_json_message loads b cenv renv msg).trace.head? =
      some (.send sock (dumps msg)) := by
  cases renv with
  | sendFail e => simp [send_json_message, send_raw_message, hConn, hWs]
  | recvFail e => simp [send_json_message, send_raw_message, hConn, hWs]
  | reply r =>
      simp only [send_json_message, send_raw_message, hConn, hWs, Bool.not_true,
        Bool.false_eq_true, if_false, reduceIte]
      cases hr : wireToStr r with
      | error e => simp [hr]
      | ok s =>
          simp only [hr]
          cases hl : loads s with
          | error e => simp [hl]
          | ok response =>
              simp only [hl]
              cases hc : checkError response with
              | error e => simp [hc]
              | ok v => simp [hc]

/-- Helper: `notify` performs exactly the network effects of its
`send_json_message` round trip. -/
theorem notify_trace_eq (loads : String → Except String PyValue) (b : Bridge)
    (cenv : ConnectOutcome) (renv : RawOutcome) (m : String) :
    (notify loads b cenv renv m).trace =
      (send_json_message loads b cenv renv (notifyCommand m)).trace := by
  simp only [notify]
  rcases h : send_json_message loads b cenv renv (notifyCommand m) with ⟨val, st, tr⟩
  cases val <;> simp

/-- Helper: `get_editor_titles` performs exactly the network effects
of its `send_json_message` round trip. -/
theorem get_editor_titles_trace_eq (loads : String → Except String PyValue)
    (b : Bridge) (cenv : ConnectOutcome) (renv : RawOutcome) :
    (get_editor_titles loads b cenv renv).trace =
      (send_json_message loads b cenv renv getEditorTitlesCommand).trace := by
  simp only [get_editor_titles]
  rcases h : send_json_message loads b cenv renv getEditorTitlesCommand with ⟨val, st, tr⟩
  cases val with
  | error e => simp
  | ok response => cases hg : pyGetMethod response "result" (.arr []) <;> simp [hg]

/-- Helper: `get_text_from_editor` performs exactly the network
effects of its `send_json_message` round trip. -/
theorem get_text_from_editor_trace_eq (loads : String → Except String PyValue)
    (b : Bridge) (cenv : ConnectOutcome) (renv : RawOutcome) (fn : String) :
    (get_text_from_editor loads b cenv renv fn).trace =
      (send_json_message loads b cenv renv (getTextFromEditorCommand fn)).trace := by
  simp only [get_text_from_editor]
  rcases h : send_json_message loads b cenv renv (getTextFromEditorCommand fn) with ⟨val, st, tr⟩
  cases val with
  | error e => simp
  | ok response => cases hg : pyGetMethod response "result" (.str "") <;> simp [hg]

/-- Helper: `set_active_editor_text` performs exactly the network
effects of its `send_json_message` round trip. -/
theorem set_active_editor_text_trace_eq (loads : String → Except String PyValue)
    (b : Bridge) (cenv : ConnectOutcome) (renv : RawOutcome) (t : String) :
    (set_active_editor_text loads b cenv renv t).trace =
      (send_json_message loads b cenv renv (setActiveEditorTextCommand t)).trace := by
  simp only [set_active_editor_text]
  rcases h : send_json_message loads b cenv renv (setActiveEditorTextCommand t) with ⟨val, st, tr⟩
  cases val <;> simp

/-- C6: each of the four public operations serializes its request as
exactly the JSON object `{"command": <tag>, "params": <object>}` with
the specified tag and parameter mapping, and that serialization is
exactly what goes out on the wire as the first network event of the
call: `notify(message)` with tag "notify" and params `{message}`;
`get_editor_titles()` with tag "get_titles_of_active_editors" and
empty params; `get_text_from_editor(title)` with tag
"get_text_from_named_editor" and params `{filename: title}`;
`set_active_editor_text(text)` with tag "set_text_of_active_editor"
and params `{text}`. -/
theorem facade_serializes_specified_commands (loads : String → Except String PyValue)
    (b : Bridge) (sock : Nat) (cenv : ConnectOutcome) (renv : RawOutcome)
    (message title text : String)
    (hConn : b.connected = true) (hWs : b.ws = some sock) :
    (notify loads b cenv renv message).trace.head? =
      some (.send sock (dumps (.obj [("command", .str "notify"),
        ("params", .obj [("message", .str message)])]))) ∧
    (get_editor_titles loads b cenv renv).trace.head? =
      some (.send sock (dumps (.obj [("command", .str "get_titles_of_active_editors"),
        ("params", .obj [])]))) ∧
    (get_text_from_editor loads b cenv renv title).trace.head? =
      some (.send sock (dumps (.obj [("command", .str "get_text_from_named_editor"),
        ("params", .obj [("filename", .str title)])]))) ∧
    (set_active_editor_text loads b cenv renv text).trace.head? =
      some (.send sock (dumps (.obj [("command", .str "set_text_of_active_editor"),
        ("params", .obj [("text", .str text)])]))) := by
  refine ⟨?_, ?_, ?_, ?_⟩
  · rw [notify_trace_eq]
    exact send_json_connected_trace_head loads b sock cenv renv _ hConn hWs
  · rw [get_editor_titles_trace_eq]
    exact send_json_connected_trace_head loads b sock cenv renv _ hConn hWs
  · rw [get_text_from_editor_trace_eq]
    exact send_json_connected_trace_head loads b sock cenv renv _ hConn hWs
  · rw [set_active_editor_text_trace_eq]
    exact send_json_connected_trace_head loads b sock cenv renv _ hConn hWs

/-- Witness for C6 at a concrete connected instance and inputs. -/
theorem facade_serializes_specified_commands_witness :
    (notify (fun _ => .ok (.obj [])) connectedBridge (.failure "c")
        (.reply (.str "r")) "hi").trace.head? =
      some (.send 7 (dumps (.obj [("command", .str "notify"),
        ("params", .obj [("message", .str "hi")])]))) ∧
    (get_editor_titles (fun _ => .ok (.obj [])) connectedBridge (.failure "c")
        (.reply (.str "r"))).trace.head? =
      some (.send 7 (dumps (.obj [("command", .str "get_titles_of_active_editors"),
        ("params", .obj [])]))) ∧
    (get_text_from_editor (fun _ => .ok (.obj [])) connectedBridge (.failure "c")
        (.reply (.str "r")) "a.txt").trace.head? =
      some (.send 7 (dumps (.obj [("command", .str "get_text_from_named_editor"),
        ("params", .obj [("filename", .str "a.txt")])]))) ∧
    (set_active_editor_text (fun _ => .ok (.obj [])) connectedBridge (.failure "c")
        (.reply (.str "r")) "hello").trace.head? =
      some (.send 7 (dumps (.obj [("command", .str "set_text_of_active_editor"),
        ("params", .obj [("text", .str "hello")])]))) :=
  facade_serializes_specified_commands _ connectedBridge 7 (.failure "c")
    (.reply (.str "r")) "hi" "a.txt" "hello" rfl rfl

/-- Helper: when the instance is disconnected, any
`send_json_message` round trip begins by attempting a fresh
`create_connection` to the configured URL. -/
theorem send_json_disconnected_trace_head (loads : String → Except String PyValue)
    (b : Bridge) (cenv : ConnectOutcome) (renv : RawOutcome) (msg : PyValue)
    (h : b.connected = false) :
    (send_json_message loads b cenv renv msg).trace.head? =
      some (.createConnection b.url) := by
  cases cenv with
  | failure e => simp [send_json_message, connect, h]
  | success sock w =>
      simp only [send_json_message, send_raw_message, connect, h, Bool.not_false,
        if_true, Bool.false_and, Bool.false_eq_true, if_false, reduceIte]
      cases renv with
      | sendFail e => rfl
      | recvFail e => rfl
      | reply r =>
          cases hr : wireToStr r with
          | error e => simp [hr]
          | ok s =>
              simp only [hr, Bool.not_true, Bool.false_eq_true, if_false, reduceIte]
              cases hl : loads s with
              | error e => simp [hl]
              | ok response =>
                  simp only [hl]
                  cases hc : checkError response with
                  | error e => simp [hc]
                  | ok v => simp [hc]

/-- C4: any I/O failure during the write or the blocking read inside
`send_raw_message` marks the connection closed (connected flag false,
socket handle cleared) before the transport `VSCodeBridgeError`
("Message send failed: ...") is surfaced; the failing call performs no
retry (its trace is the single send, plus the one receive when the
read failed); the next call to any of the four façade methods on the
resulting state begins with a fresh `create_connection` rather than
reusing the broken handle; and when that reconnection succeeds, a
subsequent call proceeds normally. -/
theorem transport_failure_closes_then_fresh_connect
    (b : Bridge) (sock sock' : Nat) (cenv : ConnectOutcome) (renv : RawOutcome)
    (m e msg respStr : String) (w : Bool)
    (loads : String → Except String PyValue)
    (hConn : b.connected = true) (hWs : b.ws = some sock)
    (hFail : renv = .sendFail e ∨ renv = .recvFail e)
    (hLoads : loads respStr = .ok (.obj [])) :
    (send_raw_message b cenv renv m).val =
      .error (.vscodeBridgeError (.str ("Message send failed: " ++ e)) .null) ∧
    (send_raw_message b cenv renv m).state.connected = false ∧
    (send_raw_message b cenv renv m).state.ws = none ∧
    ((send_raw_message b cenv renv m).trace = [.send sock m] ∨
     (send_raw_message b cenv renv m).trace = [.send sock m, .recv sock]) ∧
    (∀ (loads2 : String → Except String PyValue) (cenv2 : ConnectOutcome)
       (renv2 : RawOutcome) (m2 fn2 t2 : String),
      (notify loads2 (send_raw_message b cenv renv m).state cenv2 renv2 m2).trace.head? =
        some (.createConnection b.url) ∧
      (get_editor_titles loads2 (send_raw_message b cenv renv m).state cenv2 renv2).trace.head? =
        some (.createConnection b.url) ∧
      (get_text_from_editor loads2 (send_raw_message b cenv renv m).state cenv2 renv2 fn2).trace.head? =
        some (.createConnection b.url) ∧
      (set_active_editor_text loads2 (send_raw_message b cenv renv m).state cenv2 renv2 t2).trace.head? =
        some (.createConnection b.url)) ∧
    (notify loads (send_raw_message b cenv renv m).state (.success sock' w)
       (.reply (.str respStr)) msg).val = .ok () := by
  have hval : send_raw_message b cenv renv m =
      ⟨.error (.vscodeBridgeError (.str ("Message send failed: " ++ e)) .null),
       { b with connected := false, ws := none },
       if renv = .sendFail e then [.send sock m] else [.send sock m, .recv sock]⟩ := by
    rcases hFail with h | h <;> subst h <;> simp [send_raw_message, hConn, hWs]
  rw [hval]
  refine ⟨rfl, rfl, rfl, ?_, ?_, ?_⟩
  · rcases hFail with h | h <;> subst h <;> simp
  · intro loads2 cenv2 renv2 m2 fn2 t2
    refine ⟨?_, ?_, ?_, ?_⟩
    · rw [notify_trace_eq]
      exact send_json_disconnected_trace_head loads2 _ cenv2 renv2 _ rfl
    · rw [get_editor_titles_trace_eq]
      exact send_json_disconnected_trace_head loads2 _ cenv2 renv2 _ rfl
    · rw [get_text_from_editor_trace_eq]
      exact send_json_disconnected_trace_head loads2 _ cenv2 renv2 _ rfl
    · rw [set_active_editor_text_trace_eq]
      exact send_json_disconnected_trace_head loads2 _ cenv2 renv2 _ rfl
  · simp [notify, send_json_message, send_raw_message, connect, wireToStr,
      hLoads, checkError, pyContains]

/-- Witness for C4: a receive failure on a connected instance, then a
successful reconnect on the next `notify`, which returns normally. -/
theorem transport_failure_closes_then_fresh_connect_witness :
    (send_raw_message connectedBridge (.failure "c") (.recvFail "boom") "m").val =
      .error (.vscodeBridgeError (.str "Message send failed: boom") .null) ∧
    (send_raw_message connectedBridge (.failure "c") (.recvFail "boom") "m").state.connected = false ∧
    (send_raw_message connectedBridge (.failure "c") (.recvFail "boom") "m").state.ws = none ∧
    (notify (fun _ => .ok (.obj []))
        (send_raw_message connectedBridge (.failure "c") (.recvFail "boom") "m").state
        (.failure "still down") (.sendFail "z") "hi").trace.head? =
      some (.createConnection (wsUrl 60123)) ∧
    (notify (fun _ => .ok (.obj []))
        (send_raw_message connectedBridge (.failure "c") (.recvFail "boom") "m").state
        (.success 9 true) (.reply (.str "r")) "hi").val = .ok () := by
  obtain ⟨h1, h2, h3, _h4, h5, h6⟩ :=
    transport_failure_closes_then_fresh_connect connectedBridge 7 9 (.failure "c")
      (.recvFail "boom") "m" "boom" "hi" "r" true (fun _ => .ok (.obj []))
      rfl rfl (Or.inr rfl) rfl
  exact ⟨h1, h2, h3, (h5 (fun _ => .ok (.obj [])) (.failure "still down") (.sendFail "z") "hi" "f" "t").1, h6⟩

/-- A reply value conforming to the spec's reply schema at the shape
level C3 needs: a JSON object whose `error` member, when present, is
itself an object. -/
def schemaShapedReply (v : PyValue) : Bool :=
  match v with
  | .obj fields =>
      match fields.lookup "error" with
      | none => true
      | some (.obj _) => true
      | some _ => false
  | _ => false

/-- Whether a call outcome is a normal return or one of the module's
specified raises (all `VSCodeBridgeError`), as opposed to an escaping
`TypeError` / `AttributeError` / `KeyError`. -/
def onlySpecifiedErrors {α : Type} : Except PyExc α → Bool
  | .ok _ => true
  | .error (.vscodeBridgeError _ _) => true
  | .error _ => false

/-- Helper: `connect` returns normally or raises `VSCodeBridgeError`. -/
theorem connect_val_safe (b : Bridge) (cenv : ConnectOutcome) :
    onlySpecifiedErrors (connect b cenv).val = true := by
  unfold connect
  split
  · rfl
  · cases cenv <;> rfl

/-- Helper: `send_raw_message` returns normally or raises
`VSCodeBridgeError`. -/
theorem send_raw_val_safe (b : Bridge) (cenv : ConnectOutcome) (renv : RawOutcome)
    (m : String) : onlySpecifiedErrors (send_raw_message b cenv renv m).val = true := by
  cases hc : b.connected with
  | true =>
      cases hw : b.ws with
      | none => simp [send_raw_message, hc, hw, onlySpecifiedErrors]
      | some sock =>
          cases renv with
          | sendFail e => simp [send_raw_message, hc, hw, onlySpecifiedErrors]
          | recvFail e => simp [send_raw_message, hc, hw, onlySpecifiedErrors]
          | reply r =>
              cases hr : wireToStr r with
              | error e => simp [send_raw_message, hc, hw, hr, onlySpecifiedErrors]
              | ok s => simp [send_raw_message, hc, hw, hr, onlySpecifiedErrors]
  | false =>
      cases cenv with
      | failure e => simp [send_raw_message, connect, hc, onlySpecifiedErrors]
      | success sock w =>
          cases renv with
          | sendFail e => simp [send_raw_message, connect, hc, onlySpecifiedErrors]
          | recvFail e => simp [send_raw_message, connect, hc, onlySpecifiedErrors]
          | reply r =>
              cases hr : wireToStr r with
              | error e => simp [send_raw_message, connect, hc, hr, onlySpecifiedErrors]
              | ok s => simp [send_raw_message, connect, hc, hr, onlySpecifiedErrors]

/-- Helper: on a schema-shaped reply, the error check returns the
reply or raises `VSCodeBridgeError` (never `TypeError` or
`AttributeError`). -/
theorem checkError_safe (v : PyValue) (h : schemaShapedReply v = true) :
    onlySpecifiedErrors (checkError v) = true := by
  cases v with
  | obj fields =>
      cases he : fields.lookup "error" with
      | none => simp [checkError, pyContains, he, onlySpecifiedErrors]
      | some ev =>
          cases ev with
          | obj efields =>
              simp [checkError, pyContains, pySubscript, pyGetMethod, he,
                    onlySpecifiedErrors]
          | null => simp [schemaShapedReply, he] at h
          | bool x => simp [schemaShapedReply, he] at h
          | num n => simp [schemaShapedReply, he] at h
          | str s => simp [schemaShapedReply, he] at h
          | arr elems => simp [schemaShapedReply, he] at h
  | null => simp [schemaShapedReply] at h
  | bool x => simp [schemaShapedReply] at h
  | num n => simp [schemaShapedReply] at h
  | str s => simp [schemaShapedReply] at h
  | arr elems => simp [schemaShapedReply] at h

/-- Helper: when the error check returns a value, it is the reply
unchanged. -/
theorem checkError_ok_eq (v w : PyValue) (h : checkError v = .ok w) : w = v := by
  unfold checkError at h
  split at h
  all_goals try split at h
  all_goals try split at h
  all_goals try split at h
  all_goals first
    | exact (Except.ok.inj h).symm
    | cases h

/-- Helper: `onlySpecifiedErrors` on an error does not depend on the
value type of the call. -/
theorem onlySpecifiedErrors_error_any {a b : Type} (e : PyExc) :
    onlySpecifiedErrors (Except.error e : Except PyExc a) =
      onlySpecifiedErrors (Except.error e : Except PyExc b) := by
  cases e <;> rfl

/-- Helper: `send_json_message` returns normally or raises
`VSCodeBridgeError` when every successfully parsed reply is
schema-shaped, and any value it returns is such a reply. -/
theorem send_json_val_safe (loads : String → Except String PyValue) (b : Bridge)
    (cenv : ConnectOutcome) (renv : RawOutcome) (msg : PyValue)
    (hLoads : ∀ s v, loads s = .ok v → schemaShapedReply v = true) :
    onlySpecifiedErrors (send_json_message loads b cenv renv msg).val = true ∧
    (∀ v, (send_json_message loads b cenv renv msg).val = .ok v →
        schemaShapedReply v = true) := by
  cases hc : b.connected with
  | false =>
      cases cenv with
      | failure e =>
          constructor
          · simp [send_json_message, connect, hc, onlySpecifiedErrors]
          · intro v hv
            simp [send_json_message, connect, hc] at hv
      | success sock w =>
          simp only [send_json_message, send_raw_message, connect, hc,
            Bool.not_false, if_true, Bool.false_and, Bool.false_eq_true,
            if_false, reduceIte]
          cases renv with
          | sendFail e => simp [onlySpecifiedErrors]
          | recvFail e => simp [onlySpecifiedErrors]
          | reply r =>
              cases hr : wireToStr r with
              | error e => simp [hr, onlySpecifiedErrors]
              | ok s =>
                  simp only [hr, Bool.not_true, Bool.false_eq_true, if_false,
                    reduceIte]
                  cases hl : loads s with
                  | error e => simp [hl, onlySpecifiedErrors]
                  | ok response =>
                      have hshape := hLoads s response hl
                      simp only [hl]
                      cases hce : checkError response with
                      | error e =>
                          have hsafe := checkError_safe response hshape
                          rw [hce] at hsafe
                          simp [hce, hsafe]
                      | ok v =>
                          have hv := checkError_ok_eq response v hce
                          subst hv
                          simp only [hce]
                          constructor
                          · rfl
                          · intro u hu
                            simp only [Except.ok.injEq] at hu
                            subst hu
                            exact hshape
  | true =>
      simp only [send_json_message, send_raw_message, hc, Bool.not_true,
        Bool.false_eq_true, if_false, reduceIte]
      cases hw : b.ws with
      | none => simp [onlySpecifiedErrors]
      | some sock =>
          cases renv with
          | sendFail e => simp [onlySpecifiedErrors]
          | recvFail e => simp [onlySpecifiedErrors]
          | reply r =>
              cases hr : wireToStr r with
              | error e => simp [hr, onlySpecifiedErrors]
              | ok s =>
                  simp only [hr]
                  cases hl : loads s with
                  | error e => simp [hl, onlySpecifiedErrors]
                  | ok response =>
                      have hshape := hLoads s response hl
                      simp only [hl]
                      cases hce : checkError response with
                      | error e =>
                          have hsafe := checkError_safe response hshape
                          rw [hce] at hsafe
                          simp [hce, hsafe]
                      | ok v =>
                          have hv := checkError_ok_eq response v hce
                          subst hv
                          simp only [hce]
                          constructor
                          · rfl
                          · intro u hu
                            simp only [Except.ok.injEq] at hu
                            subst hu
                            exact hshape

/-- Helper: a schema-shaped reply is a JSON object. -/
theorem schemaShaped_is_obj (v : PyValue) (h : schemaShapedReply v = true) :
    ∃ fields, v = .obj fields := by
  cases v with
  | obj fields => exact ⟨fields, rfl⟩
  | null => simp [schemaShapedReply] at h
  | bool x => simp [schemaShapedReply] at h
  | num n => simp [schemaShapedReply] at h
  | str s => simp [schemaShapedReply] at h
  | arr elems => simp [schemaShapedReply] at h

/-- Counterexample to C3 as stated: the claim quantifies over replies
that are "valid JSON of any shape", but the reply text "42" (valid
JSON, parsing to the number 42) makes `notify` raise `TypeError` from
the membership test `'error' in response` on an `int` — an exception
that is none of the three specified error kinds and is not caught by
the `except json.JSONDecodeError` handler. -/
theorem facade_nonobject_reply_escapes_typeerror :
    (notify (fun _ => .ok (.num 42)) connectedBridge (.failure "unused")
        (.reply (.str "42")) "hi").val = .error .typeError ∧
    onlySpecifiedErrors
      (notify (fun _ => .ok (.num 42)) connectedBridge (.failure "unused")
        (.reply (.str "42")) "hi").val = false := by
  exact ⟨rfl, rfl⟩

/-- C3 (amended): for every reply text the host may send, every public
façade operation either returns its documented result or raises a
specified error (all surfaced as `VSCodeBridgeError`: connection,
transport, or bridge error) — provided every reply that parses as JSON
is an object whose `error` member, when present, is itself an object.
(Replies that fail to parse are covered: they raise the
"Invalid JSON response" bridge error.  Valid-JSON replies of other
shapes can instead escape with `TypeError` or `AttributeError`, per
the counterexample.) -/
theorem facade_raises_only_specified_errors (loads : String → Except String PyValue)
    (b : Bridge) (cenv : ConnectOutcome) (renv : RawOutcome)
    (message title text : String)
    (hLoads : ∀ s v, loads s = .ok v → schemaShapedReply v = true) :
    onlySpecifiedErrors (notify loads b cenv renv message).val = true ∧
    onlySpecifiedErrors (get_editor_titles loads b cenv renv).val = true ∧
    onlySpecifiedErrors (get_text_from_editor loads b cenv renv title).val = true ∧
    onlySpecifiedErrors (set_active_editor_text loads b cenv renv text).val = true := by
  refine ⟨?_, ?_, ?_, ?_⟩
  · obtain ⟨hsafe, hshape⟩ :=
      send_json_val_safe loads b cenv renv (notifyCommand message) hLoads
    simp only [notify]
    rcases h : send_json_message loads b cenv renv (notifyCommand message) with ⟨val, st, tr⟩
    rw [h] at hsafe
    cases val with
    | error e => exact (@onlySpecifiedErrors_error_any Unit PyValue e).trans (by simpa using hsafe)
    | ok v => rfl
  · obtain ⟨hsafe, hshape⟩ :=
      send_json_val_safe loads b cenv renv getEditorTitlesCommand hLoads
    simp only [get_editor_titles]
    rcases h : send_json_message loads b cenv renv getEditorTitlesCommand with ⟨val, st, tr⟩
    rw [h] at hsafe hshape
    cases val with
    | error e => simpa using hsafe
    | ok v =>
        obtain ⟨fields, rfl⟩ := schemaShaped_is_obj v (hshape v rfl)
        simp [pyGetMethod, onlySpecifiedErrors]
  · obtain ⟨hsafe, hshape⟩ :=
      send_json_val_safe loads b cenv renv (getTextFromEditorCommand title) hLoads
    simp only [get_text_from_editor]
    rcases h : send_json_message loads b cenv renv (getTextFromEditorCommand title) with ⟨val, st, tr⟩
    rw [h] at hsafe hshape
    cases val with
    | error e => simpa using hsafe
    | ok v =>
        obtain ⟨fields, rfl⟩ := schemaShaped_is_obj v (hshape v rfl)
        simp [pyGetMethod, onlySpecifiedErrors]
  · obtain ⟨hsafe, hshape⟩ :=
      send_json_val_safe loads b cenv renv (setActiveEditorTextCommand text) hLoads
    simp only [set_active_editor_text]
    rcases h : send_json_message loads b cenv renv (setActiveEditorTextCommand text) with ⟨val, st, tr⟩
    rw [h] at hsafe
    cases val with
    | error e => exact (@onlySpecifiedErrors_error_any Unit PyValue e).trans (by simpa using hsafe)
    | ok v => rfl

/-- Witness for C3 (amended) with a parser that always yields the
empty object, a refused connection environment and a string reply. -/
theorem facade_raises_only_specified_errors_witness :
    onlySpecifiedErrors (notify (fun _ => .ok (.obj [])) connectedBridge
      (.failure "c") (.reply (.str "r")) "hi").val = true ∧
    onlySpecifiedErrors (get_editor_titles (fun _ => .ok (.obj [])) connectedBridge
      (.failure "c") (.reply (.str "r"))).val = true ∧
    onlySpecifiedErrors (get_text_from_editor (fun _ => .ok (.obj [])) connectedBridge
      (.failure "c") (.reply (.str "r")) "a.txt").val = true ∧
    onlySpecifiedErrors (set_active_editor_text (fun _ => .ok (.obj [])) connectedBridge
      (.failure "c") (.reply (.str "r")) "hello").val = true :=
  facade_raises_only_specified_errors _ connectedBridge (.failure "c")
    (.reply (.str "r")) "hi" "a.txt" "hello"
    (fun s v h => by
      injection h with h2
      subst h2
      rfl)

/-- Counterexample to C10 as stated: the claim says `send_raw_message`
always returns a text string regardless of the reply's native type,
but a `bytes` reply that is not valid UTF-8 (here the single byte
0xFF) makes `.decode('utf-8')` raise inside the try block, so the call
raises the transport `VSCodeBridgeError` instead of returning a
string, and the connection is dropped. -/
theorem send_raw_invalid_utf8_raises :
    (send_raw_message connectedBridge (.failure "unused")
        (.reply (.bytes [255])) "m").val =
      .error (.vscodeBridgeError (.str "Message send failed: UnicodeDecodeError") .null) ∧
    (send_raw_message connectedBridge (.failure "unused")
        (.reply (.bytes [255])) "m").state.connected = false := by
  exact ⟨rfl, rfl⟩

/-- C10 (amended): `send_raw_message` normalizes every reply it
returns to a text string: a `str` reply is returned unchanged, a
`bytes` reply that is valid UTF-8 is returned decoded, and any other
value is coerced via its string representation; a `bytes` reply that
is not valid UTF-8 instead surfaces the transport `VSCodeBridgeError`
and marks the connection closed. -/
theorem send_raw_reply_normalization (b : Bridge) (sock : Nat)
    (cenv : ConnectOutcome) (m s t : String) (bs : List Nat)
    (hConn : b.connected = true) (hWs : b.ws = some sock) :
    (send_raw_message b cenv (.reply (.str s)) m).val = .ok s ∧
    (send_raw_message b cenv (.reply (.other t)) m).val = .ok t ∧
    (∀ u, decodeUtf8 bs = some u →
        (send_raw_message b cenv (.reply (.bytes bs)) m).val = .ok u) ∧
    (decodeUtf8 bs = none →
        (send_raw_message b cenv (.reply (.bytes bs)) m).val =
          .error (.vscodeBridgeError
            (.str "Message send failed: UnicodeDecodeError") .null) ∧
        (send_raw_message b cenv (.reply (.bytes bs)) m).state.connected = false ∧
        (send_raw_message b cenv (.reply (.bytes bs)) m).state.ws = none) := by
  refine ⟨?_, ?_, ?_, ?_⟩
  · simp [send_raw_message, hConn, hWs, wireToStr]
  · simp [send_raw_message, hConn, hWs, wireToStr]
  · intro u hu
    simp [send_raw_message, hConn, hWs, wireToStr, hu]
  · intro hu
    refine ⟨?_, ?_, ?_⟩ <;> simp [send_raw_message, hConn, hWs, wireToStr, hu]

/-- Witness for C10 (amended): a `str` reply, an `other` reply, the
valid UTF-8 bytes `[104, 105]` ("hi"), and the invalid byte 0xFF. -/
theorem send_raw_reply_normalization_witness :
    (send_raw_message connectedBridge (.failure "c") (.reply (.str "hey")) "m").val = .ok "hey" ∧
    (send_raw_message connectedBridge (.failure "c") (.reply (.other "objrepr")) "m").val = .ok "objrepr" ∧
    (send_raw_message connectedBridge (.failure "c") (.reply (.bytes [104, 105])) "m").val = .ok "hi" ∧
    (send_raw_message connectedBridge (.failure "c") (.reply (.bytes [255])) "m").val =
      .error (.vscodeBridgeError (.str "Message send failed: UnicodeDecodeError") .null) := by
  obtain ⟨h1, h2, h3, _⟩ :=
    send_raw_reply_normalization connectedBridge 7 (.failure "c") "m" "hey" "objrepr"
      [104, 105] rfl rfl
  obtain ⟨_, _, _, h4⟩ :=
    send_raw_reply_normalization connectedBridge 7 (.failure "c") "m" "hey" "objrepr"
      [255] rfl rfl
  exact ⟨h1, h2, h3 "hi" rfl, (h4 rfl).1⟩
